import Mathlib

/-!
Verification of the paginated record-management dialog and the chat-input
composer of the Aix-DB web front end (`src/web/src/views/TableModal.vue`).

The file embeds the two script blocks of that component as pure Lean
functions over explicit state records:

* `ListState` with `fetchData`, `close`, `deleteSelectedData`,
  `handlePageChange`, `handlePageSizeChange`, `handleCheck` models the
  paginated-table script block.  Asynchronous collaborator calls are made
  explicit: the outcome of `GlobalAPI.query_user_qa_record` is an input of
  type `FetchResponse`, and the request a fetch issues is returned as data.
* `ComposerState` with `handleEnter`, `handleChipClick`, `clearMode`
  models the composer script block; emissions are returned as
  `Option Submission`.
-/

/-- A row of the table, as consumed by the component: `chat_id` is the row
key, the remaining fields are optional display fields (`question`, `key`,
`create_time`). -/
structure Rec where
  chat_id : String
  question : Option String
  key : Option String
  create_time : Option String
deriving DecidableEq, Repr

/-- The `data.data` envelope of a successful query response.  Each field is
optional because the JS source guards it with `|| default`. -/
structure QueryData where
  records : Option (List Rec)
  total_count : Option Nat
  total_pages : Option Nat
deriving DecidableEq, Repr

/-- Outcome of the `query_user_qa_record` collaborator call, as the branches
of `fetchData` distinguish them:
* `transportError` — the awaited call threw (the `catch` branch);
* `httpFail status` — `res.ok` was false;
* `okMalformed` — `res.ok` but `data` or `data.data` is missing
  (the `else` of `if (data && data.data)`);
* `okData d` — `res.ok` with a present `data.data` envelope. -/
inductive FetchResponse where
  | transportError
  | httpFail (status : Nat)
  | okMalformed
  | okData (d : QueryData)
deriving DecidableEq, Repr

/-- The reactive state of the table-modal script block: `localShow`,
`tableData`, `loading`, `checkedRowKeys`, and the `pagination` ref's data
fields `page`, `pageSize`, `total`, `pageCount`. -/
structure ListState where
  localShow : Bool
  tableData : List Rec
  loading : Bool
  checkedRowKeys : List String
  page : Nat
  pageSize : Nat
  total : Nat
  pageCount : Nat
deriving DecidableEq, Repr

/-- First half of `fetchData`: set `loading` true and issue the query with
the current `pagination.page` and `pagination.pageSize`.  Returns the new
state together with the `(page, pageSize)` request sent to the
collaborator. -/
def fetchStart (st : ListState) : ListState × Nat × Nat :=
  ({ st with loading := true }, st.page, st.pageSize)

/-- Second half of `fetchData`: apply the collaborator's response.  On
`okData` it assigns `tableData := records || []`,
`total := total_count || 0`, `pageCount := total_pages || 0`; on every
other outcome (`res.ok` false, missing envelope, thrown error) it resets
`tableData` to `[]` and both counts to `0`.  The `finally` block clears
`loading` on every path. -/
def fetchSettle (st : ListState) (res : FetchResponse) : ListState :=
  match res with
  | .okData d =>
      { st with
        tableData := d.records.getD []
        total := d.total_count.getD 0
        pageCount := d.total_pages.getD 0
        loading := false }
  | _ =>
      { st with tableData := [], total := 0, pageCount := 0, loading := false }

/-- `fetchData`, whole: start the fetch, then settle it with the (awaited)
collaborator response.  A total function: no exception escapes to the
caller on any response. -/
def fetchData (st : ListState) (res : FetchResponse) : ListState :=
  fetchSettle (fetchStart st).1 res

/-- The `(page, pageSize)` request the `fetchData` inside an operation
issues, given the state at the moment the query is made. -/
def fetchRequest (st : ListState) : Nat × Nat :=
  ((fetchStart st).2.1, (fetchStart st).2.2)

/-- `close()`: sets `localShow` false, emits `update:show` with `false`
(returned as the second component), and resets `pagination.page` to 1. -/
def close (st : ListState) : ListState × Bool :=
  ({ st with localShow := false, page := 1 }, false)

/-- `handleCheck(rowKeys)`: replaces the selection set wholesale. -/
def handleCheck (rowKeys : List String) (st : ListState) : ListState :=
  { st with checkedRowKeys := rowKeys }

/-- Outcome of the `delete_user_record` collaborator call: `res.ok` true
or false. -/
inductive DeleteOutcome where
  | ok
  | fail
deriving DecidableEq, Repr

/-- `deleteSelectedData()`: if `checkedRowKeys.length === 0`, return at
once.  Otherwise issue the bulk-delete call with `checkedRowKeys`; when it
reports `ok`, re-invoke `fetchData` (settled with `fetchRes`); otherwise do
nothing further.  The result carries the final state, the identifier list
sent to the delete call (`none` when no call was made), and the
`(page, pageSize)` request of the refresh fetch (`none` when no refresh
was issued). -/
def deleteSelectedData (st : ListState) (outcome : DeleteOutcome)
    (fetchRes : FetchResponse) :
    ListState × Option (List String) × Option (Nat × Nat) :=
  if st.checkedRowKeys.length = 0 then
    (st, none, none)
  else
    match outcome with
    | .ok => (fetchData st fetchRes, some st.checkedRowKeys, some (fetchRequest st))
    | .fail => (st, some st.checkedRowKeys, none)

/-- `handlePageChange(page)`: store the new page, then start `fetchData`.
Returns the post-`fetchStart` state and the request it issued. -/
def handlePageChange (page : Nat) (st : ListState) : ListState × Nat × Nat :=
  fetchStart { st with page := page }

/-- `handlePageSizeChange(newPageSize)`: store the new page size, reset
`pagination.page` to 1, then start `fetchData`.  Returns the
post-`fetchStart` state and the request it issued. -/
def handlePageSizeChange (newPageSize : Nat) (st : ListState) :
    ListState × Nat × Nat :=
  fetchStart { st with pageSize := newPageSize, page := 1 }

/-- A mode chip of the composer: icon, label, value, color. -/
structure Chip where
  icon : String
  label : String
  value : String
  color : String
deriving DecidableEq, Repr

/-- The four chips of the composer, with the tag values the source gives
them. -/
def chips : List Chip :=
  [ { icon := "i-hugeicons:ai-chat-02", label := "Smart QA",
      value := "COMMON_QA", color := "#3b82f6" },
    { icon := "i-hugeicons:database-01", label := "Data QA",
      value := "DATABASE_QA", color := "#10b981" },
    { icon := "i-hugeicons:table-01", label := "Table QA",
      value := "FILEDATA_QA", color := "#f59e0b" },
    { icon := "i-hugeicons:search-02", label := "Deep Search",
      value := "REPORT_QA", color := "#8b5cf6" } ]

/-- The default general-QA tag: the value the source falls back to when no
mode chip is selected (`selectedMode.value?.value || 'COMMON_QA'`).  The
spec names this tag GENERAL_QA; its concrete value in the source is the
string COMMON_QA, the value of the general "Smart QA" chip. -/
def GENERAL_QA : String := "COMMON_QA"

/-- Model of the JS `String.prototype.trim()` used by the composer: strip
leading and trailing whitespace characters. -/
def jsTrim (s : String) : String :=
  String.mk
    (((s.data.dropWhile Char.isWhitespace).reverse.dropWhile
        Char.isWhitespace).reverse)

/-- The reactive state of the composer script block: `inputValue` and the
optional `selectedMode` chip. -/
structure ComposerState where
  inputValue : String
  selectedMode : Option Chip
deriving DecidableEq, Repr

/-- The payload of a `submit` emission: `text` and `mode`. -/
structure Submission where
  text : String
  mode : String
deriving DecidableEq, Repr

/-- `handleEnter(e)`: return at once when the event carries the shift
modifier, or when `inputValue.trim()` is empty; otherwise emit
`submit` with the stored text verbatim and
`selectedMode.value?.value || 'COMMON_QA'`, then clear `inputValue`.
The emission is returned as the `Option Submission` component.  The
send-button click invokes this with no event, hence `shiftKey = false`. -/
def handleEnter (shiftKey : Bool) (st : ComposerState) :
    ComposerState × Option Submission :=
  if shiftKey then (st, none)
  else if jsTrim st.inputValue = "" then (st, none)
  else
    ({ st with inputValue := "" },
     some { text := st.inputValue,
            mode := match st.selectedMode with
                    | some c => if c.value = "" then "COMMON_QA" else c.value
                    | none => "COMMON_QA" })

/-- `handleChipClick(chip)`: select the clicked chip, replacing any
previous one. -/
def handleChipClick (chip : Chip) (st : ComposerState) : ComposerState :=
  { st with selectedMode := some chip }

/-- `clearMode()`: reset `selectedMode` to unset; `inputValue` untouched. -/
def clearMode (st : ComposerState) : ComposerState :=
  { st with selectedMode := none }

/-- The browser's default action for an Enter keydown in a textarea:
append a newline to the text, unless `preventDefault` was called. -/
def enterDefaultInsert (prevented : Bool) (text : String) : String :=
  if prevented then text else text ++ "\n"

/-- The full keydown pipeline the template wires up:
`@keydown.enter.prevent="handleEnter"`.  The `.prevent` modifier calls
`preventDefault()` unconditionally — before the shift modifier is ever
examined — so the default newline insertion is suppressed for every Enter
press, shift-modified or not, and then `handleEnter` runs. -/
def keydownEnter (shiftKey : Bool) (st : ComposerState) :
    ComposerState × Option Submission :=
  handleEnter shiftKey
    { st with inputValue := enterDefaultInsert true st.inputValue }

/-- Claim C1: for every `fetchData` run whose collaborator query succeeds
with a well-formed envelope (all three fields present), the operation
assigns `tableData`, `total`, `pageCount` from the response's `records`,
`total_count`, `total_pages`, and the loading flag ends false. -/
theorem fetchData_wellformed_assigns (st : ListState) (rs : List Rec)
    (tc tp : Nat) :
    fetchData st (.okData { records := some rs, total_count := some tc,
                            total_pages := some tp }) =
      { st with tableData := rs, total := tc, pageCount := tp,
                loading := false } := by
  rfl

/-- Claim C2: on a transport failure, an http failure, or a malformed
response (missing data envelope), `fetchData` resets `tableData` to `[]`
and both counts to zero, and the loading flag is cleared on these exit
paths as on every other.  `fetchData` is a total function, so no
exception reaches the caller on any of these outcomes. -/
theorem fetchData_failure_resets (st : ListState) (status : Nat) :
    fetchData st .transportError =
      { st with tableData := [], total := 0, pageCount := 0,
                loading := false } ∧
    fetchData st (.httpFail status) =
      { st with tableData := [], total := 0, pageCount := 0,
                loading := false } ∧
    fetchData st .okMalformed =
      { st with tableData := [], total := 0, pageCount := 0,
                loading := false } := by
  exact ⟨rfl, rfl, rfl⟩

/-- Claim C3: a submit with text whose trimmed form is non-empty and no
mode selected emits a submission whose mode is the default general-QA tag
(GENERAL_QA, concretely the string COMMON_QA), clears the text to the
empty string and leaves the mode unset. -/
theorem handleEnter_default_mode (st : ComposerState)
    (hmode : st.selectedMode = none) (htext : jsTrim st.inputValue ≠ "") :
    handleEnter false st =
      ({ st with inputValue := "" },
       some { text := st.inputValue, mode := GENERAL_QA }) := by
  simp [handleEnter, htext, hmode, GENERAL_QA]

/-- Witness for C3 at a concrete state. -/
theorem handleEnter_default_mode_witness :
    handleEnter false { inputValue := "hello", selectedMode := none } =
      ({ inputValue := "", selectedMode := none },
       some { text := "hello", mode := "COMMON_QA" }) :=
  handleEnter_default_mode { inputValue := "hello", selectedMode := none }
    rfl (by decide)

/-- Claim C4: `handlePageSizeChange` resets the page cursor to 1 whatever
the current page was, and the fetch it starts issues the request
`(page = 1, pageSize = newPageSize)`. -/
theorem handlePageSizeChange_resets_page (newPageSize : Nat)
    (st : ListState) :
    (handlePageSizeChange newPageSize st).1.page = 1 ∧
    (handlePageSizeChange newPageSize st).2 = (1, newPageSize) := by
  exact ⟨rfl, rfl⟩

/-- Claim C5: `deleteSelectedData` with an empty selection issues no
collaborator call and leaves the state unchanged; with a non-empty
selection it issues the bulk-delete call with exactly the current
selection, refreshes via a fetch at the current (unreset) page on
success, and issues no refresh on failure. -/
theorem deleteSelectedData_spec (st : ListState) (outcome : DeleteOutcome)
    (fetchRes : FetchResponse) :
    (st.checkedRowKeys = [] →
      deleteSelectedData st outcome fetchRes = (st, none, none)) ∧
    (st.checkedRowKeys ≠ [] →
      deleteSelectedData st .ok fetchRes =
        (fetchData st fetchRes, some st.checkedRowKeys,
         some (st.page, st.pageSize)) ∧
      deleteSelectedData st .fail fetchRes =
        (st, some st.checkedRowKeys, none)) := by
  constructor
  · intro h
    simp [deleteSelectedData, h]
  · intro h
    have hl : ¬ st.checkedRowKeys.length = 0 := by
      simpa [List.length_eq_zero] using h
    constructor
    · simp [deleteSelectedData, hl, fetchRequest, fetchStart]
    · simp [deleteSelectedData, hl]

/-- Witness for C5 at concrete states: one with an empty selection, one
with selection `["a"]` on page 3. -/
theorem deleteSelectedData_spec_witness :
    deleteSelectedData
        { localShow := true, tableData := [], loading := false,
          checkedRowKeys := [], page := 3, pageSize := 8, total := 0,
          pageCount := 0 } .ok .okMalformed =
      ({ localShow := true, tableData := [], loading := false,
         checkedRowKeys := [], page := 3, pageSize := 8, total := 0,
         pageCount := 0 }, none, none) ∧
    deleteSelectedData
        { localShow := true, tableData := [], loading := false,
          checkedRowKeys := ["a"], page := 3, pageSize := 8, total := 0,
          pageCount := 0 } .ok .okMalformed =
      (fetchData
        { localShow := true, tableData := [], loading := false,
          checkedRowKeys := ["a"], page := 3, pageSize := 8, total := 0,
          pageCount := 0 } .okMalformed, some ["a"], some (3, 8)) ∧
    deleteSelectedData
        { localShow := true, tableData := [], loading := false,
          checkedRowKeys := ["a"], page := 3, pageSize := 8, total := 0,
          pageCount := 0 } .fail .okMalformed =
      ({ localShow := true, tableData := [], loading := false,
         checkedRowKeys := ["a"], page := 3, pageSize := 8, total := 0,
         pageCount := 0 }, some ["a"], none) :=
  ⟨(deleteSelectedData_spec _ .ok .okMalformed).1 rfl,
   ((deleteSelectedData_spec _ .ok .okMalformed).2 (by decide)).1,
   ((deleteSelectedData_spec _ .ok .okMalformed).2 (by decide)).2⟩

/-- Claim C6: a submit whose current text trims to the empty string emits
nothing and leaves the whole composer state (text and mode) unchanged,
for both the keyboard path and the button path. -/
theorem handleEnter_blank_noop (shiftKey : Bool) (st : ComposerState)
    (h : jsTrim st.inputValue = "") :
    handleEnter shiftKey st = (st, none) := by
  cases shiftKey <;> simp [handleEnter, h]

/-- Witness for C6 at a whitespace-only concrete state. -/
theorem handleEnter_blank_noop_witness :
    handleEnter false { inputValue := "   ", selectedMode := none } =
      ({ inputValue := "   ", selectedMode := none }, none) :=
  handleEnter_blank_noop false
    { inputValue := "   ", selectedMode := none } (by decide)

/-- Counterexample to claim C7 as stated: at the valid state
`page = 1, pageSize = 1`, a successful response carrying two records is
installed as-is, so `tableData.length = 2 > pageSize`; the component never
truncates the response. -/
theorem fetchData_length_counterexample :
    1 ≤ ((⟨true, [], false, [], 1, 1, 0, 0⟩ : ListState)).page ∧
    0 < ((⟨true, [], false, [], 1, 1, 0, 0⟩ : ListState)).pageSize ∧
    ¬ ((fetchData (⟨true, [], false, [], 1, 1, 0, 0⟩ : ListState)
          (.okData
            ⟨some [⟨"a", none, none, none⟩, ⟨"b", none, none, none⟩],
             some 2, some 2⟩)).tableData.length
        ≤ ((⟨true, [], false, [], 1, 1, 0, 0⟩ : ListState)).pageSize) := by
  refine ⟨by decide, by decide, ?_⟩
  decide

/-- Claim C7, amended: `fetchData` installs the successful response's
records list verbatim, so for all valid `page ≥ 1` and `pageSize > 0`,
`tableData.length ≤ pageSize` holds after a successful fetch exactly when
the collaborator's response carried at most `pageSize` records; the
component itself never truncates. -/
theorem fetchData_length_le_pageSize (st : ListState) (d : QueryData)
    (_hpage : 1 ≤ st.page) (_hsize : 0 < st.pageSize)
    (hresp : (d.records.getD []).length ≤ st.pageSize) :
    (fetchData st (.okData d)).tableData.length ≤ st.pageSize :=
  hresp

/-- Witness for the amended C7 at a concrete state and response. -/
theorem fetchData_length_le_pageSize_witness :
    (fetchData
      { localShow := true, tableData := [], loading := false,
        checkedRowKeys := [], page := 1, pageSize := 8, total := 0,
        pageCount := 0 }
      (.okData { records := some [], total_count := some 0,
                 total_pages := some 0 })).tableData.length ≤ 8 :=
  fetchData_length_le_pageSize
    { localShow := true, tableData := [], loading := false,
      checkedRowKeys := [], page := 1, pageSize := 8, total := 0,
      pageCount := 0 }
    { records := some [], total_count := some 0, total_pages := some 0 }
    (by decide) (by decide) (by decide)

/-- Claim C8 (code divergence): on a shift-modified enter keydown the
template's `.prevent` modifier cancels the browser's default newline
insertion unconditionally, before the handler's shiftKey guard runs, so
the text stays unchanged instead of gaining a literal newline; no
submission is emitted and the text is not cleared.  The handler's explicit
shiftKey early-return shows the newline behaviour was the intent. -/
theorem keydownEnter_shift_no_newline :
    keydownEnter true { inputValue := "hi", selectedMode := none } =
      ({ inputValue := "hi", selectedMode := none }, none) ∧
    ("hi" : String) ≠ "hi" ++ "\n" := by
  refine ⟨rfl, ?_⟩
  decide

/-- Claim C9: `close` sets visibility false (both locally and in the
emitted update), resets the page cursor to 1, and leaves `tableData` and
the selection set untouched. -/
theorem close_spec (st : ListState) :
    (close st).1.localShow = false ∧
    (close st).1.page = 1 ∧
    (close st).1.tableData = st.tableData ∧
    (close st).1.checkedRowKeys = st.checkedRowKeys ∧
    (close st).2 = false :=
  ⟨rfl, rfl, rfl, rfl, rfl⟩

/-- Claim C10: whenever `handleEnter` does emit, the emitted `text` is the
stored input value verbatim — trimming decides emptiness only and is
never applied to the payload. -/
theorem handleEnter_text_verbatim (shiftKey : Bool)
    (st st' : ComposerState) (sub : Submission)
    (h : handleEnter shiftKey st = (st', some sub)) :
    sub.text = st.inputValue := by
  cases shiftKey with
  | true => simp [handleEnter] at h
  | false =>
    by_cases ht : jsTrim st.inputValue = ""
    · simp [handleEnter, ht] at h
    · simp [handleEnter, ht] at h
      rw [← h.2]

/-- Witness for C10 at a concrete emitting call whose text carries leading
and trailing whitespace. -/
theorem handleEnter_text_verbatim_witness :
    ({ text := " hi ", mode := "COMMON_QA" } : Submission).text = " hi " :=
  handleEnter_text_verbatim false
    { inputValue := " hi ", selectedMode := none }
    { inputValue := "", selectedMode := none }
    { text := " hi ", mode := "COMMON_QA" }
    (by decide)
